import Mathlib

/-!
Shallow embedding of the skytable-go client core: the Skyhash wire parser
(`internal/proto`), the error-classification helpers (`error.go`), the
single-command and pipeline processing paths (`skytable.go`), the hook chain
(`skytable.go`), and option normalisation (`options.go`).

Byte streams are `List Nat` (one `Nat` per byte); machine integers are `Int`
with explicit range checks where Go's `strconv` would report overflow.
Fallible Go functions returning `(T, error)` become `Except GoError T`
(paired with the remaining stream for the stateful reader).
-/

namespace Sky

/-- A byte stream: one `Nat` per byte. -/
abbrev Bytes := List Nat

/-- The newline byte. -/
def NL : Nat := 10

/-- Model of the Go `error` values that flow through the client.

* `skyErr msg` is `proto.SkytableError(msg)` (has the `SkytableError()`
  marker method; `Error()` returns `msg`);
* `eof` / `unexpectedEOF` are `io.EOF` / `io.ErrUnexpectedEOF`;
* `canceled` / `deadlineExceeded` are `context.Canceled` /
  `context.DeadlineExceeded`;
* `netErr timeout msg` is a `net.Error` whose `Timeout()` method returns
  `timeout` (it also satisfies the `timeoutError` interface of `error.go`);
* `plainErr msg` is any other error (e.g. built by `fmt.Errorf`). -/
inductive GoError where
  | skyErr (msg : String)
  | eof
  | unexpectedEOF
  | canceled
  | deadlineExceeded
  | netErr (timeout : Bool) (msg : String)
  | plainErr (msg : String)
  deriving DecidableEq, Repr

/-- `proto.Nil`, the nil sentinel: `SkytableError("skytable: nil")`. -/
def NilError : GoError := .skyErr "skytable: nil"

/-- `err.Error()` — the message text of an error (`error.go` compares
string prefixes of this). The fixed strings stand for the texts of the
stdlib sentinel errors. -/
def GoError.text : GoError → String
  | .skyErr m => m
  | .eof => "EOF"
  | .unexpectedEOF => "unexpected EOF"
  | .canceled => "context canceled"
  | .deadlineExceeded => "context deadline exceeded"
  | .netErr _ m => m
  | .plainErr m => m

/-- The type assertion `err.(proto.SkytableError)` succeeds exactly on
`skyErr` values (mirrors `isSkytableError` in `error.go`). -/
def isSkytableError : GoError → Bool
  | .skyErr _ => true
  | _ => false

/-- The type assertion `err.(timeoutError)` of `error.go`: in this model
only `net.Error` values carry a `Timeout()` method. -/
def asTimeoutError : GoError → Option Bool
  | .netErr t _ => some t
  | _ => none

/-! ## Decimal integer parsing (`internal/util.Atoi`, `internal/util.ParseInt`)

These wrap Go's `strconv.Atoi` / `strconv.ParseInt(_, 10, 64)`: an optional
leading sign followed by at least one ASCII digit, rejecting anything else,
and reporting a range error outside the signed 64-bit range. -/

/-- Is `b` an ASCII decimal digit? -/
def isDigitByte (b : Nat) : Bool := 48 ≤ b && b ≤ 57

/-- The natural number denoted by a list of ASCII digit bytes. -/
def digitsVal (l : Bytes) : Nat := l.foldl (fun acc b => acc * 10 + (b - 48)) 0

/-- Signed 64-bit decimal parsing: strips an optional sign, then requires a
non-empty run of digits; values outside `[-2^63, 2^63-1]` give a range
error, other failures a syntax error (both plain errors, as `strconv`
returns `*strconv.NumError`). -/
def Atoi (b : Bytes) : Except GoError Int :=
  let core : Bytes → Bool → Except GoError Int := fun digits neg =>
    if digits ≠ [] && digits.all isDigitByte then
      let v : Int := if neg then -(digitsVal digits : Int) else (digitsVal digits : Int)
      if v < -(2 ^ 63) || (2 ^ 63 : Int) - 1 < v then
        .error (.plainErr "strconv: value out of range")
      else
        .ok v
    else
      .error (.plainErr "strconv: invalid syntax")
  match b with
  | 43 :: rest => core rest false
  | 45 :: rest => core rest true
  | _ => core b false

/-! ## The buffered reader (`internal/proto` `Reader` over `bufio.Reader`)

The reader state is the not-yet-consumed byte stream; `cap` is the size of
the `bufio.Reader`'s internal buffer.  `bufio.ReadSlice('\n')` returns the
bytes up to and including the first newline when it lies within the buffer,
`bufio.ErrBufferFull` with the first `cap` bytes when the buffer fills
without a newline, and `io.EOF` with the leftover bytes when the stream
ends first. -/

/-- Outcome of one low-level `bufio` read: the bytes delivered, the error
(if any), and the remaining stream. -/
inductive BufioErr where
  | bufferFull
  | eofErr
  deriving DecidableEq, Repr

/-- `bufio.Reader.ReadSlice('\n')` on stream `s` with buffer size `cap`. -/
def readSliceNL (cap : Nat) (s : Bytes) : Bytes × Option BufioErr × Bytes :=
  match s.findIdx? (fun b => b == NL) with
  | some i =>
    if i + 1 ≤ cap then (s.take (i + 1), none, s.drop (i + 1))
    else (s.take cap, some .bufferFull, s.drop cap)
  | none =>
    if s.length < cap then (s, some .eofErr, [])
    else (s.take cap, some .bufferFull, s.drop cap)

/-- `bufio.Reader.ReadBytes('\n')`: reads until the newline (inclusive)
with no buffer-size limit; `io.EOF` if the stream ends first. -/
def readBytesNL (s : Bytes) : Bytes × Option BufioErr × Bytes :=
  match s.findIdx? (fun b => b == NL) with
  | some i => (s.take (i + 1), none, s.drop (i + 1))
  | none => (s, some .eofErr, [])

/-- `Reader.readLine`: `ReadSlice('\n')`; on `ErrBufferFull` save the
prefix and continue with `ReadBytes('\n')`; any other error propagates.
A line of length ≤ 1 (or one not ending in '\n') is an "invalid reply";
otherwise the line is returned with its trailing '\n' stripped. -/
def readLine (cap : Nat) (s : Bytes) : Except GoError Bytes × Bytes :=
  let check : Bytes → Bytes → Except GoError Bytes × Bytes := fun b rest =>
    if b.length ≤ 1 || b.getLast? ≠ some NL then
      (.error (.plainErr "skytable: invalid reply"), rest)
    else
      (.ok b.dropLast, rest)
  match readSliceNL cap s with
  | (b, none, rest) => check b rest
  | (_, some .eofErr, rest) => (.error .eof, rest)
  | (b, some .bufferFull, rest) =>
    match readBytesNL rest with
    | (b2, none, rest2) => check (b ++ b2) rest2
    | (_, some _, rest2) => (.error .eof, rest2)

/-! ## Status codes and typed errors (`internal/proto`) -/

/-- `proto.CodeToErrorMap`, a Go `map[int64]SkytableError`: a missing key
yields the zero value `SkytableError("")`. -/
def CodeToErrorMap (v : Int) : String :=
  if v = 1 then "skytable: nil"
  else if v = 2 then "skytable: overwrite error"
  else if v = 3 then "skytable: action error"
  else if v = 4 then "skytable: packet error"
  else if v = 5 then "skytable: server error"
  else if v = 6 then "skytable: other error"
  else if v = 7 then "skytable: wrong type error"
  else if v = 8 then "skytable: unknown data type"
  else if v = 9 then "skytable: encoding error"
  else if v = 10 then "skytable: bad credentials"
  else if v = 11 then "skytable: authn realm error"
  else ""

/-- `replyLen(line)`: `util.Atoi(line[1:])`, rejecting negatives.  The
non-negative result is returned as a `Nat`. -/
def replyLen (line : Bytes) : Except GoError Nat :=
  match Atoi (line.drop 1) with
  | .error e => .error e
  | .ok n =>
    if n < 0 then .error (.plainErr "skytable: invalid reply")
    else .ok n.toNat

/-- `Reader.readStatus(line)`: check the length header parses, read the
code line, parse it, and map the code: 0 → success, 1 → `Nil`,
2 ≤ code < 12 → `CodeToErrorMap[code]`, otherwise an untyped
"unknown error occured" error. -/
def readStatus (cap : Nat) (line s : Bytes) : Except GoError Int × Bytes :=
  match Atoi (line.drop 1) with
  | .error e => (.error e, s)
  | .ok _ =>
    match readLine cap s with
    | (.error e, s') => (.error e, s')
    | (.ok l2, s') =>
      match Atoi l2 with
      | .error _ => (.error (.plainErr "skytable: bad status payload"), s')
      | .ok val =>
        if val = 0 then (.ok 0, s')
        else if val = 1 then (.error NilError, s')
        else if val < 12 then (.error (.skyErr (CodeToErrorMap val)), s')
        else
          (.error (.plainErr ("skytable: unknown error occured, message: " ++ toString val)), s')

/-- `Reader.readInt`: read the next line and `util.ParseInt(line[1:], 10, 64)`. -/
def readIntR (cap : Nat) (s : Bytes) : Except GoError Int × Bytes :=
  match readLine cap s with
  | (.error e, s') => (.error e, s')
  | (.ok line, s') =>
    match Atoi (line.drop 1) with
    | .error e => (.error e, s')
    | .ok v => (.ok v, s')

/-- Syntactic success of `strconv.ParseFloat(v, 32)` on the decimal forms:
optional sign, a digit run with at most one '.', and an optional
exponent part. -/
def isFloatLit (l : Bytes) : Bool :=
  let mantissa : Bytes → Bool := fun m =>
    m.count 46 ≤ 1 && m.all (fun b => isDigitByte b || b == 46) && m.any isDigitByte
  let l := match l with
    | 43 :: r => r
    | 45 :: r => r
    | _ => l
  match l.findIdx? (fun b => b == 101 || b == 69) with
  | none => mantissa l
  | some i =>
    let etail := l.drop (i + 1)
    let e := match etail with
      | 43 :: r => r
      | 45 :: r => r
      | _ => etail
    mantissa (l.take i) && e ≠ [] && e.all isDigitByte

/-- `Reader.readFloat`: read the next line, take `line[1:]`, recognise
`inf` / `-inf`, else `strconv.ParseFloat`.  The float32 value itself is
modelled by its payload bytes. -/
def readFloatR (cap : Nat) (s : Bytes) : Except GoError Bytes × Bytes :=
  match readLine cap s with
  | (.error e, s') => (.error e, s')
  | (.ok line, s') =>
    let v := line.drop 1
    if v = [105, 110, 102] || v = [45, 105, 110, 102] then (.ok v, s')
    else if isFloatLit v then (.ok v, s')
    else (.error (.plainErr "strconv: invalid float syntax"), s')

/-- `Reader.readString(line)`: `replyLen`, then `io.ReadFull` of `n+1`
bytes, returning the first `n` (the final byte is the line terminator).
`io.ReadFull` reports `io.EOF` when no byte could be read and
`io.ErrUnexpectedEOF` on a partial read. -/
def readStringR (line s : Bytes) : Except GoError Bytes × Bytes :=
  match replyLen line with
  | .error e => (.error e, s)
  | .ok n =>
    if n + 1 ≤ s.length then (.ok (s.take n), s.drop (n + 1))
    else if s.length = 0 then (.error .eof, s)
    else (.error .unexpectedEOF, [])

/-- The `interface{}` value produced by `Reader.ReadReply`, including the
values `readSlice` stores into array slots: a typed value, the Go `nil`
(stored for a `Nil` element status), or a `SkytableError` (stored for any
other typed element status). -/
inductive RVal where
  | vint (i : Int)
  | vfloat (payload : Bytes)
  | vstr (s : Bytes)
  | vblob (s : Bytes)
  | nilSlot
  | errSlot (msg : String)
  | varr (xs : List RVal)

/-- Prepends a slot value to the result of reading the remaining array
elements (the `val[i] = …; continue` step of `readSlice`'s loop). -/
def consElem (x : RVal) : Except GoError (List RVal) × Bytes → Except GoError (List RVal) × Bytes
  | (.ok xs, s) => (.ok (x :: xs), s)
  | (.error e, s) => (.error e, s)

/-- The element loop of `Reader.readSlice`, over an arbitrary element
reader `rr` (instantiated with `ReadReply`): read `n` elements; a `Nil`
element error stores Go `nil` in the slot, any other `SkytableError` is
stored in the slot, and any other error aborts the whole array parse. -/
def readElemsF (rr : Bytes → Except GoError RVal × Bytes) :
    Nat → Bytes → Except GoError (List RVal) × Bytes
  | 0, s => (.ok [], s)
  | n' + 1, s =>
    match rr s with
    | (.ok v, s') => consElem v (readElemsF rr n' s')
    | (.error e, s') =>
      if e = NilError then consElem .nilSlot (readElemsF rr n' s')
      else
        match e with
        | .skyErr m => consElem (.errSlot m) (readElemsF rr n' s')
        | _ => (.error e, s')

/-- `Reader.ReadReply`: read a line and dispatch on its first byte
(`!` status, `:` int, `%` float, `+` string, `?` blob, `&` array).
`fuel` bounds the recursion depth of nested arrays; an exhausted fuel
reports a model-internal error. -/
def ReadReply (cap : Nat) : Nat → Bytes → Except GoError RVal × Bytes
  | 0, s => (.error (.plainErr "model: out of fuel"), s)
  | fuel' + 1, s =>
    match readLine cap s with
    | (.error e, s') => (.error e, s')
    | (.ok line, s') =>
      match line.head? with
      | none => (.error (.plainErr "skytable: can't parse"), s')
      | some c =>
        if c = 33 then
          match readStatus cap line s' with
          | (.ok v, s2) => (.ok (.vint v), s2)
          | (.error e, s2) => (.error e, s2)
        else if c = 58 then
          match readIntR cap s' with
          | (.ok v, s2) => (.ok (.vint v), s2)
          | (.error e, s2) => (.error e, s2)
        else if c = 37 then
          match readFloatR cap s' with
          | (.ok v, s2) => (.ok (.vfloat v), s2)
          | (.error e, s2) => (.error e, s2)
        else if c = 43 then
          match readStringR line s' with
          | (.ok v, s2) => (.ok (.vstr v), s2)
          | (.error e, s2) => (.error e, s2)
        else if c = 63 then
          match readLine cap s' with
          | (.ok v, s2) => (.ok (.vblob v), s2)
          | (.error e, s2) => (.error e, s2)
        else if c = 38 then
          match replyLen line with
          | .error e => (.error e, s')
          | .ok n =>
            match readElemsF (fun s2 => ReadReply cap fuel' s2) n s' with
            | (.ok xs, s2) => (.ok (.varr xs), s2)
            | (.error e, s2) => (.error e, s2)
        else (.error (.plainErr "skytable: can't parse"), s')

/-- The element loop instantiated with `ReadReply`, as `readSlice` runs it. -/
def readElems (cap fuel n : Nat) (s : Bytes) : Except GoError (List RVal) × Bytes :=
  readElemsF (fun s2 => ReadReply cap fuel s2) n s

/-- `Reader.readSlice(line)`: `replyLen`, then the element loop. -/
def readSliceR (cap fuel : Nat) (line s : Bytes) : Except GoError (List RVal) × Bytes :=
  match replyLen line with
  | .error e => (.error e, s)
  | .ok n => readElems cap fuel n s

/-- `Reader.ReadMetaFrame`: read a line, require the `*` lead byte, and
parse the element count. -/
def ReadMetaFrame (cap : Nat) (s : Bytes) : Except GoError Int × Bytes :=
  match readLine cap s with
  | (.error e, s') => (.error e, s')
  | (.ok line, s') =>
    if line.head? ≠ some 42 then (.error (.plainErr "skytable: invalid meta frame"), s')
    else
      match Atoi (line.drop 1) with
      | .error e => (.error e, s')
      | .ok n => (.ok n, s')

/-- `Reader.ReadStatus`: read a line, require the `!` lead byte, then
`readStatus`. -/
def ReadStatusTop (cap : Nat) (s : Bytes) : Except GoError Int × Bytes :=
  match readLine cap s with
  | (.error e, s') => (.error e, s')
  | (.ok line, s') =>
    if line.head? ≠ some 33 then (.error (.plainErr "skytable: can't parse reply"), s')
    else readStatus cap line s'

/-- `Reader.ReadInt`: read a line; a `!` status propagates its error (a
status that carries no error still falls through to the parse failure);
a `:` line delegates to `readInt`; anything else is a parse failure. -/
def ReadIntTop (cap : Nat) (s : Bytes) : Except GoError Int × Bytes :=
  match readLine cap s with
  | (.error e, s') => (.error e, s')
  | (.ok line, s') =>
    if line.head? = some 33 then
      match readStatus cap line s' with
      | (.error e, s2) => (.error e, s2)
      | (.ok _, s2) => (.error (.plainErr "skytable: can't parse int reply"), s2)
    else if line.head? = some 58 then readIntR cap s'
    else (.error (.plainErr "skytable: can't parse int reply"), s')

/-- `Reader.ReadString`: like `ReadInt` but accepting `+` and `?` lines
via `readString`. -/
def ReadStringTop (cap : Nat) (s : Bytes) : Except GoError Bytes × Bytes :=
  match readLine cap s with
  | (.error e, s') => (.error e, s')
  | (.ok line, s') =>
    if line.head? = some 33 then
      match readStatus cap line s' with
      | (.error e, s2) => (.error e, s2)
      | (.ok _, s2) => (.error (.plainErr "skytable: can't parse reply reading string"), s2)
    else if line.head? = some 43 || line.head? = some 63 then readStringR line s'
    else (.error (.plainErr "skytable: can't parse reply reading string"), s')

/-- `Reader.ReadFloat`: like `ReadInt` but accepting `%` lines via
`readFloat`. -/
def ReadFloatTop (cap : Nat) (s : Bytes) : Except GoError Bytes × Bytes :=
  match readLine cap s with
  | (.error e, s') => (.error e, s')
  | (.ok line, s') =>
    if line.head? = some 33 then
      match readStatus cap line s' with
      | (.error e, s2) => (.error e, s2)
      | (.ok _, s2) => (.error (.plainErr "skytable: can't parse float reply"), s2)
    else if line.head? = some 37 then readFloatR cap s'
    else (.error (.plainErr "skytable: can't parse float reply"), s')

/-- `Reader.ReadSlice`: like `ReadInt` but accepting `&` lines via
`readSlice`. -/
def ReadSliceTop (cap fuel : Nat) (s : Bytes) : Except GoError (List RVal) × Bytes :=
  match readLine cap s with
  | (.error e, s') => (.error e, s')
  | (.ok line, s') =>
    if line.head? = some 33 then
      match readStatus cap line s' with
      | (.error e, s2) => (.error e, s2)
      | (.ok _, s2) => (.error (.plainErr "skytable: can't parse reply reading slice"), s2)
    else if line.head? = some 38 then readSliceR cap fuel line s'
    else (.error (.plainErr "skytable: can't parse reply reading slice"), s')

/-! ## Error classification (`error.go`) -/

/-- `shouldRetry(err, retryTimeout)`: EOFs retry; `nil`, cancellations and
deadline errors do not; an error with a `Timeout()` method retries iff
`retryTimeout` when it is a timeout, and always when it is not; everything
else (typed server errors included) does not retry. -/
def shouldRetry (err : Option GoError) (retryTimeout : Bool) : Bool :=
  match err with
  | none => false
  | some e =>
    match e with
    | .eof => true
    | .unexpectedEOF => true
    | .canceled => false
    | .deadlineExceeded => false
    | _ =>
      match asTimeoutError e with
      | some t => if t then retryTimeout else true
      | none => false

/-- `isReadOnlyError(err)`: the error text starts with `"READONLY "`. -/
def isReadOnlyError (e : GoError) : Bool :=
  e.text.startsWith "READONLY "

/-- `isMovedSameConnAddr(err, addr)`: the error text starts with
`"MOVED "` and ends with `" " + addr`. -/
def isMovedSameConnAddr (e : GoError) (addr : String) : Bool :=
  e.text.startsWith "MOVED " && e.text.endsWith (" " ++ addr)

/-- `isBadConn(err, allowTimeout, addr)`: `nil` is fine; cancellations and
deadline errors are bad; a typed Skytable error is bad only for the
`READONLY`/`MOVED <same addr>` texts; otherwise a network timeout is
tolerated when `allowTimeout` is set and every remaining error is bad. -/
def isBadConn (err : Option GoError) (allowTimeout : Bool) (addr : String) : Bool :=
  match err with
  | none => false
  | some e =>
    if e = .canceled || e = .deadlineExceeded then true
    else if isSkytableError e then
      if isReadOnlyError e then true
      else if isMovedSameConnAddr e addr then true
      else false
    else
      if allowTimeout then
        match asTimeoutError e with
        | some true => false
        | _ => true
      else true

/-! ## Durations (Go `time.Duration`, in nanoseconds) -/

def millisecond : Int := 1000000

def second : Int := 1000000000

def minute : Int := 60 * second

/-! ## Single-command path (`baseClient._process`, `baseClient.cmdTimeout`) -/

/-- `baseClient.cmdTimeout(cmd)`: a per-command read timeout of 0 means no
deadline, a non-zero one gets 10 s of grace; with no per-command timeout
the options' `ReadTimeout` is used as-is. -/
def cmdTimeout (optReadTimeout : Int) (cmdRT : Option Int) : Int :=
  match cmdRT with
  | some t => if t = 0 then 0 else t + 10 * second
  | none => optReadTimeout

/-- The read deadline as the spec words it (§4.4):
`max(cmd.readTimeout, ReadTimeout) + 10s` grace. -/
def specReadDeadline (optReadTimeout : Int) (cmdRT : Option Int) : Int :=
  max (cmdRT.getD 0) optReadTimeout + 10 * second

/-- Outcome of the reader closure inside `_process`: the metaframe read
may fail, its count may differ from 1, `cmd.readReply` may fail (the
metaframe line having already been consumed), or everything succeeds. -/
inductive ReadOutcome where
  | metaErr (e : GoError)
  | countMismatch (n : Int)
  | replyErr (e : GoError)
  | allOk
  deriving DecidableEq, Repr

/-- The error returned by the reader closure of `_process` for a given
outcome. -/
def readPhaseErr : ReadOutcome → Option GoError
  | .metaErr e => some e
  | .countMismatch n => some (.plainErr ("skytable: expected 1 commands, got " ++ toString n))
  | .replyErr e => some e
  | .allOk => none

/-- Did the reader consume part of the reply before the outcome?  The
count check and `readReply` both run after the metaframe line was
consumed. -/
def partialReplyConsumed : ReadOutcome → Bool
  | .metaErr _ => false
  | .countMismatch _ => true
  | .replyErr _ => true
  | .allOk => false

/-- One attempt of `baseClient._process` (backoff sleep and connection
acquisition elided), given the write result, the read outcome and the
command's optional per-command read timeout: returns the retry decision
and the attempt's error.  `retryTimeout` is the local `uint32` that starts
at 1 and is stored back as 1 when the failing command has no per-command
read timeout; the retry decision is `shouldRetry(err, retryTimeout == 1)`. -/
def processAttempt (cmdRT : Option Int) (writeErr : Option GoError) (ro : ReadOutcome) :
    Bool × Option GoError :=
  let retryTimeout : Bool := true
  match writeErr with
  | some e => (shouldRetry (some e) retryTimeout, some e)
  | none =>
    match readPhaseErr ro with
    | some e =>
      let retryTimeout := if cmdRT = none then true else retryTimeout
      (shouldRetry (some e) retryTimeout, some e)
    | none => (false, none)

/-! ## Pipeline path (`pipelineReadCmds`, `baseClient.generalProcessPipeline`) -/

/-- The reply-reading strategy of a queued command (which `Read*` method
its `readReply` uses). -/
inductive CmdKind where
  | statusCmd
  | intCmd
  | floatCmd
  | stringCmd
  | sliceCmd
  | anyCmd
  deriving DecidableEq, Repr

/-- Drops the parsed value, keeping the error and the remaining stream. -/
def errView {α : Type} : Except GoError α × Bytes → Option GoError × Bytes
  | (.ok _, s) => (none, s)
  | (.error e, s) => (some e, s)

/-- `cmd.readReply(rd)` for each command kind, viewed through its error. -/
def cmdReadReply (cap fuel : Nat) (k : CmdKind) (s : Bytes) : Option GoError × Bytes :=
  match k with
  | .statusCmd => errView (ReadStatusTop cap s)
  | .intCmd => errView (ReadIntTop cap s)
  | .floatCmd => errView (ReadFloatTop cap s)
  | .stringCmd => errView (ReadStringTop cap s)
  | .sliceCmd => errView (ReadSliceTop cap fuel s)
  | .anyCmd => errView (ReadReply cap fuel s)

/-- The command loop of `pipelineReadCmds`: each command reads its reply
in request order and `SetErr` records the result on the command; a
non-Skytable error aborts the loop, leaving the later commands
untouched. -/
def pipeReadLoop (cap fuel : Nat) (cmds : List CmdKind) (s : Bytes) :
    List (Option GoError) × Option GoError × Bytes :=
  match cmds with
  | [] => ([], none, s)
  | c :: cs =>
    let (e, s') := cmdReadReply cap fuel c s
    match e with
    | some err =>
      if isSkytableError err then
        let (es, res, s2) := pipeReadLoop cap fuel cs s'
        (some err :: es, res, s2)
      else (some err :: cs.map (fun _ => none), some err, s')
    | none =>
      let (es, res, s2) := pipeReadLoop cap fuel cs s'
      (none :: es, res, s2)

/-- `pipelineReadCmds`: read the reply metaframe, require its count to
equal the number of commands, then run the command loop.  The first
component is each command's error slot after the call. -/
def pipelineReadCmds (cap fuel : Nat) (cmds : List CmdKind) (s : Bytes) :
    List (Option GoError) × Option GoError × Bytes :=
  match ReadMetaFrame cap s with
  | (.error e, s') => (cmds.map (fun _ => none), some e, s')
  | (.ok cnt, s') =>
    if cnt ≠ (cmds.length : Int) then
      (cmds.map (fun _ => none),
       some (.plainErr ("skytable: expected " ++ toString cmds.length ++
         " commands, got " ++ toString cnt)), s')
    else pipeReadLoop cap fuel cmds s'

/-- Modelled from the spec: `setCmdsErr` lives in the command helpers,
which are not under `src/`; per the spec, after a batch failure "every
command carries a non-nil error" — each command slot without an error yet
receives the batch error. -/
def setCmdsErr (es : List (Option GoError)) (e : GoError) : List (Option GoError) :=
  es.map (fun x => match x with | none => some e | some y => some y)

/-- Modelled from the spec: `cmdsFirstErr` (command helpers, not under
`src/`) — "the batch's aggregate return is the first command's error (or
nil if all succeeded)": the first non-nil error slot. -/
def cmdsFirstErr (es : List (Option GoError)) : Option GoError :=
  match es with
  | [] => none
  | some e :: _ => some e
  | none :: rest => cmdsFirstErr rest

/-- One attempt of `baseClient.generalProcessPipeline` (retry loop elided:
a count-mismatch error is a plain error, which `shouldRetry` rejects):
on a batch error every command receives it via `setCmdsErr`; otherwise the
aggregate result is `cmdsFirstErr`. -/
def generalProcessPipeline (cap fuel : Nat) (cmds : List CmdKind) (s : Bytes) :
    List (Option GoError) × Option GoError :=
  let r := pipelineReadCmds cap fuel cmds s
  match r.2.1 with
  | some e => (setCmdsErr r.1 e, some e)
  | none => (r.1, cmdsFirstErr r.1)

/-! ## Hook chain (`hooks.process` in `skytable.go`) -/

/-- A hook, described by what its `BeforeProcess` and `AfterProcess`
calls return (context rewriting is elided). -/
structure HookM where
  beforeErr : Option GoError
  afterErr : Option GoError
  deriving DecidableEq

/-- An observable event of one `hooks.process` run: hook `i`'s
`BeforeProcess`, the inner `fn`, or hook `i`'s `AfterProcess`. -/
inductive HEvent where
  | beforeEv (i : Nat)
  | innerEv
  | afterEv (i : Nat)
  deriving DecidableEq, Repr

/-- The first `for` loop of `hooks.process`: run `BeforeProcess` of each
hook starting at index `i` while no error occurred; returns the final
`hookIndex` (incremented past the failing hook too), the error, and the
trace. -/
def beforeLoop (hs : List HookM) (i : Nat) : Nat × Option GoError × List HEvent :=
  match hs with
  | [] => (i, none, [])
  | h :: t =>
    match h.beforeErr with
    | none =>
      let r := beforeLoop t (i + 1)
      (r.1, r.2.1, .beforeEv i :: r.2.2)
    | some e => (i + 1, some e, [.beforeEv i])

/-- The second `for` loop of `hooks.process`, already put in execution
order (descending indices): run each `AfterProcess`; a non-nil result
overwrites both `retErr` and the command's error. -/
def afterLoop (l : List (Nat × HookM)) (retErr cmdErr : Option GoError) :
    Option GoError × Option GoError × List HEvent :=
  match l with
  | [] => (retErr, cmdErr, [])
  | (i, h) :: t =>
    match h.afterErr with
    | none =>
      let r := afterLoop t retErr cmdErr
      (r.1, r.2.1, .afterEv i :: r.2.2)
    | some e =>
      let r := afterLoop t (some e) (some e)
      (r.1, r.2.1, .afterEv i :: r.2.2)

/-- `hooks.process(ctx, cmd, fn)` where `fn` would return `fnErr`:
returns the call's result, the command's final error slot, and the event
trace.  With no hooks, `fn` runs and its error is set on the command.
Otherwise the before loop runs, then `fn` if no before failed (its error,
nil included, is set on the command), then the after loop over the entered
hooks in reverse order. -/
def hooksProcess (hs : List HookM) (fnErr : Option GoError) :
    Option GoError × Option GoError × List HEvent :=
  if hs.isEmpty then (fnErr, fnErr, [.innerEv])
  else
    let b := beforeLoop hs 0
    let mid : Option GoError × Option GoError × List HEvent :=
      match b.2.1 with
      | none => (fnErr, fnErr, [.innerEv])
      | some e => (some e, some e, [])
    let a := afterLoop ((hs.take b.1).enum.reverse) mid.1 mid.2.1
    (a.1, a.2.1, b.2.2 ++ mid.2.2 ++ a.2.2)

/-! ## Options normalisation (`options.go`) -/

/-- The fields of `Options` that `init` normalises (functions, TLS and
pool-internal knobs elided); durations are in nanoseconds. -/
structure Options where
  Addr : String
  Network : String
  Table : String
  MaxRetries : Int
  MinRetryBackoff : Int
  MaxRetryBackoff : Int
  DialTimeout : Int
  ReadTimeout : Int
  WriteTimeout : Int
  PoolSize : Int
  PoolTimeout : Int
  IdleTimeout : Int
  IdleCheckFrequency : Int

/-- `init` step: `if opt.Addr == "" { opt.Addr = "localhost:2003" }`. -/
def sAddr (o : Options) : Options :=
  if o.Addr = "" then { o with Addr := "localhost:2003" } else o

/-- `init` step: `if opt.Network == "" { opt.Network = "tcp" }`. -/
def sNetwork (o : Options) : Options :=
  if o.Network = "" then { o with Network := "tcp" } else o

/-- `init` step: a non-empty `Table` without a ':' gets the `default:`
FQE prefix. -/
def sTable (o : Options) : Options :=
  if o.Table ≠ "" && !(o.Table.contains ':') then
    { o with Table := "default:" ++ o.Table } else o

/-- `init` step: `DialTimeout` 0 → 5 s. -/
def sDial (o : Options) : Options :=
  if o.DialTimeout = 0 then { o with DialTimeout := 5 * second } else o

/-- `init` step: `PoolSize` 0 → `10 * runtime.GOMAXPROCS(0)`. -/
def sPool (g : Int) (o : Options) : Options :=
  if o.PoolSize = 0 then { o with PoolSize := 10 * g } else o

/-- `init` step: `ReadTimeout` -1 → 0 (no timeout), 0 → 3 s. -/
def sRead (o : Options) : Options :=
  if o.ReadTimeout = -1 then { o with ReadTimeout := 0 }
  else if o.ReadTimeout = 0 then { o with ReadTimeout := 3 * second } else o

/-- `init` step: `WriteTimeout` -1 → 0 (no timeout), 0 → the (already
normalised) `ReadTimeout`. -/
def sWrite (o : Options) : Options :=
  if o.WriteTimeout = -1 then { o with WriteTimeout := 0 }
  else if o.WriteTimeout = 0 then { o with WriteTimeout := o.ReadTimeout } else o

/-- `init` step: `PoolTimeout` 0 → `ReadTimeout + 1 s`. -/
def sPoolTimeout (o : Options) : Options :=
  if o.PoolTimeout = 0 then { o with PoolTimeout := o.ReadTimeout + second } else o

/-- `init` step: `IdleTimeout` 0 → 5 min. -/
def sIdle (o : Options) : Options :=
  if o.IdleTimeout = 0 then { o with IdleTimeout := 5 * minute } else o

/-- `init` step: `IdleCheckFrequency` 0 → 1 min. -/
def sIdleFreq (o : Options) : Options :=
  if o.IdleCheckFrequency = 0 then { o with IdleCheckFrequency := minute } else o

/-- `init` step: `MaxRetries` -1 → 0, 0 → 3. -/
def sMaxRetries (o : Options) : Options :=
  if o.MaxRetries = -1 then { o with MaxRetries := 0 }
  else if o.MaxRetries = 0 then { o with MaxRetries := 3 } else o

/-- `init` step: `MinRetryBackoff` -1 → 0, 0 → 8 ms. -/
def sMinBackoff (o : Options) : Options :=
  if o.MinRetryBackoff = -1 then { o with MinRetryBackoff := 0 }
  else if o.MinRetryBackoff = 0 then { o with MinRetryBackoff := 8 * millisecond } else o

/-- `init` step: `MaxRetryBackoff` -1 → 0, 0 → 512 ms. -/
def sMaxBackoff (o : Options) : Options :=
  if o.MaxRetryBackoff = -1 then { o with MaxRetryBackoff := 0 }
  else if o.MaxRetryBackoff = 0 then { o with MaxRetryBackoff := 512 * millisecond } else o

/-- `Options.init`: the normalisation steps in source order
(`runtime.GOMAXPROCS(0)` passed in as `g`). -/
def Options.init (g : Int) (o : Options) : Options :=
  sMaxBackoff (sMinBackoff (sMaxRetries (sIdleFreq (sIdle (sPoolTimeout
    (sWrite (sRead (sPool g (sDial (sTable (sNetwork (sAddr o))))))))))))

/-! Projection lemmas: what each `init` step does to the fields the
defaults table constrains. -/

theorem sAddr_MaxRetries (o : Options) : (sAddr o).MaxRetries = o.MaxRetries := by
  unfold sAddr; split_ifs <;> rfl

theorem sAddr_MinRetryBackoff (o : Options) : (sAddr o).MinRetryBackoff = o.MinRetryBackoff := by
  unfold sAddr; split_ifs <;> rfl

theorem sAddr_MaxRetryBackoff (o : Options) : (sAddr o).MaxRetryBackoff = o.MaxRetryBackoff := by
  unfold sAddr; split_ifs <;> rfl

theorem sAddr_DialTimeout (o : Options) : (sAddr o).DialTimeout = o.DialTimeout := by
  unfold sAddr; split_ifs <;> rfl

theorem sAddr_ReadTimeout (o : Options) : (sAddr o).ReadTimeout = o.ReadTimeout := by
  unfold sAddr; split_ifs <;> rfl

theorem sAddr_WriteTimeout (o : Options) : (sAddr o).WriteTimeout = o.WriteTimeout := by
  unfold sAddr; split_ifs <;> rfl

theorem sAddr_Table (o : Options) : (sAddr o).Table = o.Table := by
  unfold sAddr; split_ifs <;> rfl

theorem sNetwork_MaxRetries (o : Options) : (sNetwork o).MaxRetries = o.MaxRetries := by
  unfold sNetwork; split_ifs <;> rfl

theorem sNetwork_MinRetryBackoff (o : Options) : (sNetwork o).MinRetryBackoff = o.MinRetryBackoff := by
  unfold sNetwork; split_ifs <;> rfl

theorem sNetwork_MaxRetryBackoff (o : Options) : (sNetwork o).MaxRetryBackoff = o.MaxRetryBackoff := by
  unfold sNetwork; split_ifs <;> rfl

theorem sNetwork_DialTimeout (o : Options) : (sNetwork o).DialTimeout = o.DialTimeout := by
  unfold sNetwork; split_ifs <;> rfl

theorem sNetwork_ReadTimeout (o : Options) : (sNetwork o).ReadTimeout = o.ReadTimeout := by
  unfold sNetwork; split_ifs <;> rfl

theorem sNetwork_WriteTimeout (o : Options) : (sNetwork o).WriteTimeout = o.WriteTimeout := by
  unfold sNetwork; split_ifs <;> rfl

theorem sNetwork_Table (o : Options) : (sNetwork o).Table = o.Table := by
  unfold sNetwork; split_ifs <;> rfl

theorem sTable_MaxRetries (o : Options) : (sTable o).MaxRetries = o.MaxRetries := by
  unfold sTable; split_ifs <;> rfl

theorem sTable_MinRetryBackoff (o : Options) : (sTable o).MinRetryBackoff = o.MinRetryBackoff := by
  unfold sTable; split_ifs <;> rfl

theorem sTable_MaxRetryBackoff (o : Options) : (sTable o).MaxRetryBackoff = o.MaxRetryBackoff := by
  unfold sTable; split_ifs <;> rfl

theorem sTable_DialTimeout (o : Options) : (sTable o).DialTimeout = o.DialTimeout := by
  unfold sTable; split_ifs <;> rfl

theorem sTable_ReadTimeout (o : Options) : (sTable o).ReadTimeout = o.ReadTimeout := by
  unfold sTable; split_ifs <;> rfl

theorem sTable_WriteTimeout (o : Options) : (sTable o).WriteTimeout = o.WriteTimeout := by
  unfold sTable; split_ifs <;> rfl

theorem sTable_Table (o : Options) : (sTable o).Table = if o.Table ≠ "" && !(o.Table.contains ':') then "default:" ++ o.Table else o.Table := by
  unfold sTable; split_ifs <;> rfl

theorem sDial_MaxRetries (o : Options) : (sDial o).MaxRetries = o.MaxRetries := by
  unfold sDial; split_ifs <;> rfl

theorem sDial_MinRetryBackoff (o : Options) : (sDial o).MinRetryBackoff = o.MinRetryBackoff := by
  unfold sDial; split_ifs <;> rfl

theorem sDial_MaxRetryBackoff (o : Options) : (sDial o).MaxRetryBackoff = o.MaxRetryBackoff := by
  unfold sDial; split_ifs <;> rfl

theorem sDial_DialTimeout (o : Options) : (sDial o).DialTimeout = if o.DialTimeout = 0 then 5 * second else o.DialTimeout := by
  unfold sDial; split_ifs <;> rfl

theorem sDial_ReadTimeout (o : Options) : (sDial o).ReadTimeout = o.ReadTimeout := by
  unfold sDial; split_ifs <;> rfl

theorem sDial_WriteTimeout (o : Options) : (sDial o).WriteTimeout = o.WriteTimeout := by
  unfold sDial; split_ifs <;> rfl

theorem sDial_Table (o : Options) : (sDial o).Table = o.Table := by
  unfold sDial; split_ifs <;> rfl

theorem sPool_MaxRetries (g : Int) (o : Options) : (sPool g o).MaxRetries = o.MaxRetries := by
  unfold sPool; split_ifs <;> rfl

theorem sPool_MinRetryBackoff (g : Int) (o : Options) : (sPool g o).MinRetryBackoff = o.MinRetryBackoff := by
  unfold sPool; split_ifs <;> rfl

theorem sPool_MaxRetryBackoff (g : Int) (o : Options) : (sPool g o).MaxRetryBackoff = o.MaxRetryBackoff := by
  unfold sPool; split_ifs <;> rfl

theorem sPool_DialTimeout (g : Int) (o : Options) : (sPool g o).DialTimeout = o.DialTimeout := by
  unfold sPool; split_ifs <;> rfl

theorem sPool_ReadTimeout (g : Int) (o : Options) : (sPool g o).ReadTimeout = o.ReadTimeout := by
  unfold sPool; split_ifs <;> rfl

theorem sPool_WriteTimeout (g : Int) (o : Options) : (sPool g o).WriteTimeout = o.WriteTimeout := by
  unfold sPool; split_ifs <;> rfl

theorem sPool_Table (g : Int) (o : Options) : (sPool g o).Table = o.Table := by
  unfold sPool; split_ifs <;> rfl

theorem sRead_MaxRetries (o : Options) : (sRead o).MaxRetries = o.MaxRetries := by
  unfold sRead; split_ifs <;> rfl

theorem sRead_MinRetryBackoff (o : Options) : (sRead o).MinRetryBackoff = o.MinRetryBackoff := by
  unfold sRead; split_ifs <;> rfl

theorem sRead_MaxRetryBackoff (o : Options) : (sRead o).MaxRetryBackoff = o.MaxRetryBackoff := by
  unfold sRead; split_ifs <;> rfl

theorem sRead_DialTimeout (o : Options) : (sRead o).DialTimeout = o.DialTimeout := by
  unfold sRead; split_ifs <;> rfl

theorem sRead_ReadTimeout (o : Options) : (sRead o).ReadTimeout = if o.ReadTimeout = -1 then 0 else if o.ReadTimeout = 0 then 3 * second else o.ReadTimeout := by
  unfold sRead; split_ifs <;> rfl

theorem sRead_WriteTimeout (o : Options) : (sRead o).WriteTimeout = o.WriteTimeout := by
  unfold sRead; split_ifs <;> rfl

theorem sRead_Table (o : Options) : (sRead o).Table = o.Table := by
  unfold sRead; split_ifs <;> rfl

theorem sWrite_MaxRetries (o : Options) : (sWrite o).MaxRetries = o.MaxRetries := by
  unfold sWrite; split_ifs <;> rfl

theorem sWrite_MinRetryBackoff (o : Options) : (sWrite o).MinRetryBackoff = o.MinRetryBackoff := by
  unfold sWrite; split_ifs <;> rfl

theorem sWrite_MaxRetryBackoff (o : Options) : (sWrite o).MaxRetryBackoff = o.MaxRetryBackoff := by
  unfold sWrite; split_ifs <;> rfl

theorem sWrite_DialTimeout (o : Options) : (sWrite o).DialTimeout = o.DialTimeout := by
  unfold sWrite; split_ifs <;> rfl

theorem sWrite_ReadTimeout (o : Options) : (sWrite o).ReadTimeout = o.ReadTimeout := by
  unfold sWrite; split_ifs <;> rfl

theorem sWrite_WriteTimeout (o : Options) : (sWrite o).WriteTimeout = if o.WriteTimeout = -1 then 0 else if o.WriteTimeout = 0 then o.ReadTimeout else o.WriteTimeout := by
  unfold sWrite; split_ifs <;> rfl

theorem sWrite_Table (o : Options) : (sWrite o).Table = o.Table := by
  unfold sWrite; split_ifs <;> rfl

theorem sPoolTimeout_MaxRetries (o : Options) : (sPoolTimeout o).MaxRetries = o.MaxRetries := by
  unfold sPoolTimeout; split_ifs <;> rfl

theorem sPoolTimeout_MinRetryBackoff (o : Options) : (sPoolTimeout o).MinRetryBackoff = o.MinRetryBackoff := by
  unfold sPoolTimeout; split_ifs <;> rfl

theorem sPoolTimeout_MaxRetryBackoff (o : Options) : (sPoolTimeout o).MaxRetryBackoff = o.MaxRetryBackoff := by
  unfold sPoolTimeout; split_ifs <;> rfl

theorem sPoolTimeout_DialTimeout (o : Options) : (sPoolTimeout o).DialTimeout = o.DialTimeout := by
  unfold sPoolTimeout; split_ifs <;> rfl

theorem sPoolTimeout_ReadTimeout (o : Options) : (sPoolTimeout o).ReadTimeout = o.ReadTimeout := by
  unfold sPoolTimeout; split_ifs <;> rfl

theorem sPoolTimeout_WriteTimeout (o : Options) : (sPoolTimeout o).WriteTimeout = o.WriteTimeout := by
  unfold sPoolTimeout; split_ifs <;> rfl

theorem sPoolTimeout_Table (o : Options) : (sPoolTimeout o).Table = o.Table := by
  unfold sPoolTimeout; split_ifs <;> rfl

theorem sIdle_MaxRetries (o : Options) : (sIdle o).MaxRetries = o.MaxRetries := by
  unfold sIdle; split_ifs <;> rfl

theorem sIdle_MinRetryBackoff (o : Options) : (sIdle o).MinRetryBackoff = o.MinRetryBackoff := by
  unfold sIdle; split_ifs <;> rfl

theorem sIdle_MaxRetryBackoff (o : Options) : (sIdle o).MaxRetryBackoff = o.MaxRetryBackoff := by
  unfold sIdle; split_ifs <;> rfl

theorem sIdle_DialTimeout (o : Options) : (sIdle o).DialTimeout = o.DialTimeout := by
  unfold sIdle; split_ifs <;> rfl

theorem sIdle_ReadTimeout (o : Options) : (sIdle o).ReadTimeout = o.ReadTimeout := by
  unfold sIdle; split_ifs <;> rfl

theorem sIdle_WriteTimeout (o : Options) : (sIdle o).WriteTimeout = o.WriteTimeout := by
  unfold sIdle; split_ifs <;> rfl

theorem sIdle_Table (o : Options) : (sIdle o).Table = o.Table := by
  unfold sIdle; split_ifs <;> rfl

theorem sIdleFreq_MaxRetries (o : Options) : (sIdleFreq o).MaxRetries = o.MaxRetries := by
  unfold sIdleFreq; split_ifs <;> rfl

theorem sIdleFreq_MinRetryBackoff (o : Options) : (sIdleFreq o).MinRetryBackoff = o.MinRetryBackoff := by
  unfold sIdleFreq; split_ifs <;> rfl

theorem sIdleFreq_MaxRetryBackoff (o : Options) : (sIdleFreq o).MaxRetryBackoff = o.MaxRetryBackoff := by
  unfold sIdleFreq; split_ifs <;> rfl

theorem sIdleFreq_DialTimeout (o : Options) : (sIdleFreq o).DialTimeout = o.DialTimeout := by
  unfold sIdleFreq; split_ifs <;> rfl

theorem sIdleFreq_ReadTimeout (o : Options) : (sIdleFreq o).ReadTimeout = o.ReadTimeout := by
  unfold sIdleFreq; split_ifs <;> rfl

theorem sIdleFreq_WriteTimeout (o : Options) : (sIdleFreq o).WriteTimeout = o.WriteTimeout := by
  unfold sIdleFreq; split_ifs <;> rfl

theorem sIdleFreq_Table (o : Options) : (sIdleFreq o).Table = o.Table := by
  unfold sIdleFreq; split_ifs <;> rfl

theorem sMaxRetries_MaxRetries (o : Options) : (sMaxRetries o).MaxRetries = if o.MaxRetries = -1 then 0 else if o.MaxRetries = 0 then 3 else o.MaxRetries := by
  unfold sMaxRetries; split_ifs <;> rfl

theorem sMaxRetries_MinRetryBackoff (o : Options) : (sMaxRetries o).MinRetryBackoff = o.MinRetryBackoff := by
  unfold sMaxRetries; split_ifs <;> rfl

theorem sMaxRetries_MaxRetryBackoff (o : Options) : (sMaxRetries o).MaxRetryBackoff = o.MaxRetryBackoff := by
  unfold sMaxRetries; split_ifs <;> rfl

theorem sMaxRetries_DialTimeout (o : Options) : (sMaxRetries o).DialTimeout = o.DialTimeout := by
  unfold sMaxRetries; split_ifs <;> rfl

theorem sMaxRetries_ReadTimeout (o : Options) : (sMaxRetries o).ReadTimeout = o.ReadTimeout := by
  unfold sMaxRetries; split_ifs <;> rfl

theorem sMaxRetries_WriteTimeout (o : Options) : (sMaxRetries o).WriteTimeout = o.WriteTimeout := by
  unfold sMaxRetries; split_ifs <;> rfl

theorem sMaxRetries_Table (o : Options) : (sMaxRetries o).Table = o.Table := by
  unfold sMaxRetries; split_ifs <;> rfl

theorem sMinBackoff_MaxRetries (o : Options) : (sMinBackoff o).MaxRetries = o.MaxRetries := by
  unfold sMinBackoff; split_ifs <;> rfl

theorem sMinBackoff_MinRetryBackoff (o : Options) : (sMinBackoff o).MinRetryBackoff = if o.MinRetryBackoff = -1 then 0 else if o.MinRetryBackoff = 0 then 8 * millisecond else o.MinRetryBackoff := by
  unfold sMinBackoff; split_ifs <;> rfl

theorem sMinBackoff_MaxRetryBackoff (o : Options) : (sMinBackoff o).MaxRetryBackoff = o.MaxRetryBackoff := by
  unfold sMinBackoff; split_ifs <;> rfl

theorem sMinBackoff_DialTimeout (o : Options) : (sMinBackoff o).DialTimeout = o.DialTimeout := by
  unfold sMinBackoff; split_ifs <;> rfl

theorem sMinBackoff_ReadTimeout (o : Options) : (sMinBackoff o).ReadTimeout = o.ReadTimeout := by
  unfold sMinBackoff; split_ifs <;> rfl

theorem sMinBackoff_WriteTimeout (o : Options) : (sMinBackoff o).WriteTimeout = o.WriteTimeout := by
  unfold sMinBackoff; split_ifs <;> rfl

theorem sMinBackoff_Table (o : Options) : (sMinBackoff o).Table = o.Table := by
  unfold sMinBackoff; split_ifs <;> rfl

theorem sMaxBackoff_MaxRetries (o : Options) : (sMaxBackoff o).MaxRetries = o.MaxRetries := by
  unfold sMaxBackoff; split_ifs <;> rfl

theorem sMaxBackoff_MinRetryBackoff (o : Options) : (sMaxBackoff o).MinRetryBackoff = o.MinRetryBackoff := by
  unfold sMaxBackoff; split_ifs <;> rfl

theorem sMaxBackoff_MaxRetryBackoff (o : Options) : (sMaxBackoff o).MaxRetryBackoff = if o.MaxRetryBackoff = -1 then 0 else if o.MaxRetryBackoff = 0 then 512 * millisecond else o.MaxRetryBackoff := by
  unfold sMaxBackoff; split_ifs <;> rfl

theorem sMaxBackoff_DialTimeout (o : Options) : (sMaxBackoff o).DialTimeout = o.DialTimeout := by
  unfold sMaxBackoff; split_ifs <;> rfl

theorem sMaxBackoff_ReadTimeout (o : Options) : (sMaxBackoff o).ReadTimeout = o.ReadTimeout := by
  unfold sMaxBackoff; split_ifs <;> rfl

theorem sMaxBackoff_WriteTimeout (o : Options) : (sMaxBackoff o).WriteTimeout = o.WriteTimeout := by
  unfold sMaxBackoff; split_ifs <;> rfl

theorem sMaxBackoff_Table (o : Options) : (sMaxBackoff o).Table = o.Table := by
  unfold sMaxBackoff; split_ifs <;> rfl

/-- String literals as byte streams, for concrete inputs. -/
def strB (s : String) : Bytes := s.toList.map Char.toNat

/-! # Theorems -/

/-- **C1.** For every status reply element `!<len>\n<code>\n` whose length
header parses and whose decimal code payload denotes the natural number
`n`, `readStatus` maps: 0 → success (no error), 1 → the `Nil` sentinel,
2–11 → the corresponding typed Skytable errors (Overwrite, Action,
Packet, Server, Other, WrongType, UnknownDataType, Encoding,
BadCredentials, AuthnRealm), and every `n ≥ 12` → an opaque "unknown
status" error that is not any typed Skytable error. -/
theorem readStatus_code_mapping (cap : Nat) (line s l2 s' : Bytes) (L : Int) (n : Nat)
    (hlen : Atoi (line.drop 1) = .ok L)
    (hline : readLine cap s = (.ok l2, s'))
    (hcode : Atoi l2 = .ok (n : Int)) :
    (n = 0 → readStatus cap line s = (.ok 0, s')) ∧
    (n = 1 → readStatus cap line s = (.error NilError, s')) ∧
    (n = 2 → readStatus cap line s = (.error (.skyErr "skytable: overwrite error"), s')) ∧
    (n = 3 → readStatus cap line s = (.error (.skyErr "skytable: action error"), s')) ∧
    (n = 4 → readStatus cap line s = (.error (.skyErr "skytable: packet error"), s')) ∧
    (n = 5 → readStatus cap line s = (.error (.skyErr "skytable: server error"), s')) ∧
    (n = 6 → readStatus cap line s = (.error (.skyErr "skytable: other error"), s')) ∧
    (n = 7 → readStatus cap line s = (.error (.skyErr "skytable: wrong type error"), s')) ∧
    (n = 8 → readStatus cap line s = (.error (.skyErr "skytable: unknown data type"), s')) ∧
    (n = 9 → readStatus cap line s = (.error (.skyErr "skytable: encoding error"), s')) ∧
    (n = 10 → readStatus cap line s = (.error (.skyErr "skytable: bad credentials"), s')) ∧
    (n = 11 → readStatus cap line s = (.error (.skyErr "skytable: authn realm error"), s')) ∧
    (12 ≤ n →
      readStatus cap line s =
        (.error (.plainErr ("skytable: unknown error occured, message: " ++ toString (n : Int))),
          s') ∧
      ∀ m, (readStatus cap line s).1 ≠ .error (.skyErr m)) := by
  simp only [List.drop_one] at hlen
  refine ⟨?_, ?_, ?_, ?_, ?_, ?_, ?_, ?_, ?_, ?_, ?_, ?_, ?_⟩
  case _ => intro h; subst h; simp [readStatus, hlen, hline, hcode]
  case _ => intro h; subst h; simp [readStatus, hlen, hline, hcode, NilError]
  all_goals (
    first
    | (intro h; subst h; simp [readStatus, hlen, hline, hcode, CodeToErrorMap])
    | (intro h
       have c0 : ¬((n : Int) = 0) := by omega
       have c1 : ¬((n : Int) = 1) := by omega
       have c2 : ¬((n : Int) < 12) := by omega
       have key : readStatus cap line s =
           (.error (.plainErr
             ("skytable: unknown error occured, message: " ++ toString (n : Int))), s') := by
         simp [readStatus, hlen, hline, hcode, c0, c1, c2]
       exact ⟨key, fun m => by rw [key]; simp⟩))

/-- Witness for `readStatus_code_mapping` at the concrete status element
`!1` with code line `2\n` (the Overwrite error). -/
theorem readStatus_code_mapping_witness :
    readStatus 4096 [33, 49] [50, 10] = (.error (.skyErr "skytable: overwrite error"), []) :=
  (readStatus_code_mapping 4096 [33, 49] [50, 10] [50] [] 1 2 rfl rfl rfl).2.2.1 rfl

/-- **C3.** When `ReadReply` on an array element yields a typed Skytable
status error, `readSlice`'s element loop stores that error in the
element's slot (the `Nil` status storing the Go `nil`) and goes on with
the remaining elements; only an error that is not a typed Skytable error
aborts the enclosing array parse and propagates. -/
theorem readSlice_element_errors (cap fuel n : Nat) (s s' : Bytes) (e : GoError)
    (h : ReadReply cap fuel s = (.error e, s')) :
    (e = NilError →
      readElems cap fuel (n + 1) s = consElem .nilSlot (readElems cap fuel n s')) ∧
    (∀ m, e = .skyErr m → e ≠ NilError →
      readElems cap fuel (n + 1) s = consElem (.errSlot m) (readElems cap fuel n s')) ∧
    (isSkytableError e = false → readElems cap fuel (n + 1) s = (.error e, s')) := by
  refine ⟨?_, ?_, ?_⟩
  · intro he; subst he
    simp [readElems, readElemsF, h]
  · intro m he hne; subst he
    simp [readElems, readElemsF, h, hne]
  · intro hsky
    have hne : e ≠ NilError := by
      intro he; subst he; simp [isSkytableError, NilError] at hsky
    cases e <;> simp_all [readElems, readElemsF, isSkytableError]

/-- Witness for `readSlice_element_errors`: an element whose status line
carries code 5 (the Server error) lands in its slot. -/
theorem readSlice_element_errors_witness :
    readElems 4096 1 1 [33, 49, 10, 53, 10] =
      consElem (.errSlot "skytable: server error") (readElems 4096 1 0 []) :=
  (readSlice_element_errors 4096 1 0 [33, 49, 10, 53, 10] []
      (.skyErr "skytable: server error") rfl).2.1 "skytable: server error" rfl (by decide)

/-- **C4.** For every pipelined batch: a reply metaframe count different
from the number of commands fails the batch with the count-mismatch
error and every command carries that non-nil error; when counts agree the
commands read their replies in request order (the loop steps through the
queue front to back), a typed Skytable element error is recorded on its
own command without aborting, and a non-Skytable error aborts the batch,
leaving the later commands untouched. -/
theorem pipeline_read_contract (cap fuel : Nat) :
    (∀ (cmds : List CmdKind) (s s' : Bytes) (cnt : Int),
      ReadMetaFrame cap s = (.ok cnt, s') → cnt ≠ (cmds.length : Int) →
      generalProcessPipeline cap fuel cmds s =
        (cmds.map (fun _ => some (.plainErr ("skytable: expected " ++ toString cmds.length ++
            " commands, got " ++ toString cnt))),
         some (.plainErr ("skytable: expected " ++ toString cmds.length ++
            " commands, got " ++ toString cnt)))) ∧
    (∀ (c : CmdKind) (cs : List CmdKind) (s s1 : Bytes) (m : String),
      cmdReadReply cap fuel c s = (some (.skyErr m), s1) →
      pipeReadLoop cap fuel (c :: cs) s =
        (some (.skyErr m) :: (pipeReadLoop cap fuel cs s1).1,
         (pipeReadLoop cap fuel cs s1).2)) ∧
    (∀ (c : CmdKind) (cs : List CmdKind) (s s1 : Bytes) (e : GoError),
      cmdReadReply cap fuel c s = (some e, s1) → isSkytableError e = false →
      pipeReadLoop cap fuel (c :: cs) s = (some e :: cs.map (fun _ => none), some e, s1)) ∧
    (∀ (c : CmdKind) (cs : List CmdKind) (s s1 : Bytes),
      cmdReadReply cap fuel c s = (none, s1) →
      pipeReadLoop cap fuel (c :: cs) s =
        (none :: (pipeReadLoop cap fuel cs s1).1, (pipeReadLoop cap fuel cs s1).2)) := by
  refine ⟨?_, ?_, ?_, ?_⟩
  · intro cmds s s' cnt h1 h2
    simp [generalProcessPipeline, pipelineReadCmds, h1, h2, setCmdsErr, List.map_map,
      Function.comp]
  · intro c cs s s1 m h
    rcases hr : pipeReadLoop cap fuel cs s1 with ⟨es, res, s2⟩
    simp [pipeReadLoop, h, hr, isSkytableError]
  · intro c cs s s1 e h hsky
    simp [pipeReadLoop, h, hsky]
  · intro c cs s s1 h
    rcases hr : pipeReadLoop cap fuel cs s1 with ⟨es, res, s2⟩
    simp [pipeReadLoop, h, hr]

/-- Witness for `pipeline_read_contract`: a metaframe announcing 3 replies
for a 2-command batch puts the mismatch error on both commands. -/
theorem pipeline_read_contract_witness :
    generalProcessPipeline 4096 10 [.stringCmd, .stringCmd] [42, 51, 10] =
      ([some (.plainErr ("skytable: expected " ++ toString ([CmdKind.stringCmd, .stringCmd]).length ++
          " commands, got " ++ toString (3 : Int))),
        some (.plainErr ("skytable: expected " ++ toString ([CmdKind.stringCmd, .stringCmd]).length ++
          " commands, got " ++ toString (3 : Int)))],
       some (.plainErr ("skytable: expected " ++ toString ([CmdKind.stringCmd, .stringCmd]).length ++
          " commands, got " ++ toString (3 : Int)))) :=
  (pipeline_read_contract 4096 10).1 [.stringCmd, .stringCmd] [42, 51, 10] [] 3 rfl (by decide)

/-- Mapping `afterEv` over the indices of an enumerated hook list is the
same as mapping it over `range`. -/
theorem enum_afterEv_map (l : List HookM) :
    l.enum.map (fun p => HEvent.afterEv p.1) = (List.range l.length).map HEvent.afterEv := by
  rw [← List.enum_map_fst l, List.map_map]
  rfl

/-- `beforeLoop` when every hook's `BeforeProcess` succeeds: all hooks are
entered in order and `hookIndex` ends past the last hook. -/
theorem beforeLoop_all_ok (hs : List HookM) (i : Nat)
    (h : ∀ x ∈ hs, x.beforeErr = none) :
    beforeLoop hs i = (i + hs.length, none, (List.range' i hs.length).map .beforeEv) := by
  induction hs generalizing i with
  | nil => simp [beforeLoop]
  | cons a t ih =>
    have ha : a.beforeErr = none := h a (by simp)
    have ht : ∀ x ∈ t, x.beforeErr = none := fun x hx => h x (by simp [hx])
    simp [beforeLoop, ha, ih (i + 1) ht, List.range'_succ]
    omega

/-- `beforeLoop` when the first failing hook sits after `pre`: the loop
stops there, `hookIndex` having been incremented past the failing hook. -/
theorem beforeLoop_fail (pre : List HookM) (h0 : HookM) (post : List HookM) (i : Nat)
    (e : GoError) (hpre : ∀ x ∈ pre, x.beforeErr = none) (h0e : h0.beforeErr = some e) :
    beforeLoop (pre ++ h0 :: post) i =
      (i + pre.length + 1, some e, (List.range' i (pre.length + 1)).map .beforeEv) := by
  induction pre generalizing i with
  | nil => simp [beforeLoop, h0e, List.range'_succ]
  | cons a t ih =>
    have ha : a.beforeErr = none := hpre a (by simp)
    have ht : ∀ x ∈ t, x.beforeErr = none := fun x hx => hpre x (by simp [hx])
    simp [beforeLoop, ha, ih (i + 1) ht, List.range'_succ]
    omega

/-- The after loop visits exactly the given hooks, in the given order. -/
theorem afterLoop_trace (l : List (Nat × HookM)) (r c : Option GoError) :
    (afterLoop l r c).2.2 = l.map (fun p => .afterEv p.1) := by
  induction l generalizing r c with
  | nil => simp [afterLoop]
  | cons a t ih =>
    obtain ⟨i, h⟩ := a
    rcases ha : h.afterErr with _ | e <;> simp [afterLoop, ha, ih]

/-- The after loop's `retErr` and the command's error slot both end as the
last non-nil `AfterProcess` error in execution order, or keep their
incoming values when every `AfterProcess` returns nil. -/
theorem afterLoop_results (l : List (Nat × HookM)) (r c : Option GoError) :
    (afterLoop l r c).1 = ((l.filterMap fun p => p.2.afterErr).getLast?).elim r some ∧
    (afterLoop l r c).2.1 = ((l.filterMap fun p => p.2.afterErr).getLast?).elim c some := by
  induction l generalizing r c with
  | nil => simp [afterLoop]
  | cons a t ih =>
    obtain ⟨i, h⟩ := a
    rcases ha : h.afterErr with _ | e
    · simp [afterLoop, ha, ih]
    · rcases htl : t.filterMap (fun p => p.2.afterErr) with _ | ⟨b, bs⟩
      · simp [afterLoop, ha, (ih (some e) (some e)).1, (ih (some e) (some e)).2, htl]
      · simp [afterLoop, ha, (ih (some e) (some e)).1, (ih (some e) (some e)).2, htl,
          List.getLast?_cons_cons]
        rcases hbl : (b :: bs).getLast? with _ | x
        · simp [List.getLast?_isSome] at hbl
        · simp [hbl]

/-- **C5.** `hooks.process`: with every `BeforeProcess` succeeding, the
trace is the `BeforeProcess` calls in registration order, then the inner
`fn`, then the `AfterProcess` calls in reverse registration order, and
the command's final error (like the returned error) is the last non-nil
`AfterProcess` error in execution order, defaulting to `fn`'s error
(`AfterProcess` errors overwrite, last non-nil wins).  When some
`BeforeProcess` fails, the remaining `BeforeProcess` calls and the inner
`fn` are skipped while the already-entered hooks' `AfterProcess` calls
still fire in reverse order. -/
theorem hooks_process_contract :
    (∀ (hs : List HookM) (fnErr : Option GoError), hs ≠ [] →
      (∀ x ∈ hs, x.beforeErr = none) →
      (hooksProcess hs fnErr).2.2 =
        (List.range hs.length).map .beforeEv ++ [.innerEv] ++
          ((List.range hs.length).reverse).map .afterEv ∧
      (hooksProcess hs fnErr).2.1 =
        (((hs.enum.reverse).filterMap fun p => p.2.afterErr).getLast?).elim fnErr some ∧
      (hooksProcess hs fnErr).1 =
        (((hs.enum.reverse).filterMap fun p => p.2.afterErr).getLast?).elim fnErr some) ∧
    (∀ (pre : List HookM) (h0 : HookM) (post : List HookM) (fnErr : Option GoError)
        (e : GoError), (∀ x ∈ pre, x.beforeErr = none) → h0.beforeErr = some e →
      (hooksProcess (pre ++ h0 :: post) fnErr).2.2 =
        (List.range (pre.length + 1)).map .beforeEv ++
          ((List.range (pre.length + 1)).reverse).map .afterEv ∧
      .innerEv ∉ (hooksProcess (pre ++ h0 :: post) fnErr).2.2) := by
  constructor
  · intro hs fnErr hne hok
    have hb := beforeLoop_all_ok hs 0 hok
    have htake : hs.take (0 + hs.length) = hs := by simp [List.take_length]
    refine ⟨?_, ?_, ?_⟩
    · rw [hooksProcess]
      simp only [List.isEmpty_eq_true, hne, if_false, hb, htake]
      simp [afterLoop_trace, List.map_reverse, enum_afterEv_map, List.range_eq_range']
    · rw [hooksProcess]
      simp only [List.isEmpty_eq_true, hne, if_false, hb, htake]
      exact (afterLoop_results _ _ _).2
    · rw [hooksProcess]
      simp only [List.isEmpty_eq_true, hne, if_false, hb, htake]
      exact (afterLoop_results _ _ _).1
  · intro pre h0 post fnErr e hpre h0e
    have hne : pre ++ h0 :: post ≠ [] := by simp
    have hb := beforeLoop_fail pre h0 post 0 e hpre h0e
    have htake : (pre ++ h0 :: post).take (0 + pre.length + 1) = pre ++ [h0] := by
      simp [List.take_append_eq_append_take, List.take_length]
    have key : (hooksProcess (pre ++ h0 :: post) fnErr).2.2 =
        (List.range (pre.length + 1)).map .beforeEv ++
          ((List.range (pre.length + 1)).reverse).map .afterEv := by
      rw [hooksProcess]
      simp only [List.isEmpty_eq_true, hne, if_false, hb, htake]
      simp [afterLoop_trace, List.map_reverse, enum_afterEv_map, List.range_eq_range']
    refine ⟨key, ?_⟩
    rw [key]
    simp

/-- Witness for `hooks_process_contract`, part one: two hooks, the first
with a failing `AfterProcess`: trace `[before 0, before 1, inner,
after 1, after 0]` and the command ends with hook 0's after-error. -/
theorem hooks_process_contract_witness :
    (hooksProcess [⟨none, some (.plainErr "after0")⟩, ⟨none, none⟩] none).2.2 =
      (List.range 2).map .beforeEv ++ [.innerEv] ++ ((List.range 2).reverse).map .afterEv ∧
    (hooksProcess [⟨none, some (.plainErr "after0")⟩, ⟨none, none⟩] none).2.1 =
      ((([(⟨none, some (.plainErr "after0")⟩ : HookM), ⟨none, none⟩].enum.reverse).filterMap
          fun p => p.2.afterErr).getLast?).elim none some ∧
    (hooksProcess [⟨none, some (.plainErr "after0")⟩, ⟨none, none⟩] none).1 =
      ((([(⟨none, some (.plainErr "after0")⟩ : HookM), ⟨none, none⟩].enum.reverse).filterMap
          fun p => p.2.afterErr).getLast?).elim none some :=
  hooks_process_contract.1 [⟨none, some (.plainErr "after0")⟩, ⟨none, none⟩] none
    (by decide) (by decide)

/-- `findIdx?` over a list whose first match sits right after `pre`. -/
theorem findIdx?_append_first (p : Nat → Bool) (x : Nat) (rest : Bytes) (pre : Bytes) :
    ∀ (i : Nat), (∀ a ∈ pre, p a = false) → p x = true →
    List.findIdx? p (pre ++ x :: rest) i = some (i + pre.length) := by
  induction pre with
  | nil => intro i _ hx; simp [List.findIdx?_cons, hx]
  | cons a t ih =>
    intro i hpre hx
    have ha : p a = false := hpre a (by simp)
    have ht : ∀ b ∈ t, p b = false := fun b hb => hpre b (by simp [hb])
    rw [List.cons_append, List.findIdx?_cons, if_neg (by simp [ha]), ih (i + 1) ht hx]
    simp only [List.length_cons]
    congr 1
    omega

/-- **C9.** A reply line parses for every buffer size, in particular when
the line overflows the `bufio` buffer: `readLine` on
`pre ++ '\n' :: rest` (no newline in `pre`, `pre` non-empty) returns the
complete line `pre` with the terminator stripped and leaves `rest`
unconsumed — for any buffer size `cap`, including `cap < pre.length + 1`
where the `ErrBufferFull` continuation runs.  A stream with no newline at
all fails with an EOF error instead. -/
theorem readLine_growth (cap : Nat) :
    (∀ pre rest : Bytes, (∀ a ∈ pre, a ≠ NL) → pre ≠ [] →
      readLine cap (pre ++ NL :: rest) = (.ok pre, rest)) ∧
    (∀ s : Bytes, (∀ a ∈ s, a ≠ NL) → (readLine cap s).1 = .error .eof) := by
  constructor
  · intro pre rest hpre hne
    have hp : ∀ a ∈ pre, (fun b => b == NL) a = false := by
      intro a ha
      simpa [beq_eq_false_iff_ne] using hpre a ha
    have hfind : List.findIdx? (fun b => b == NL) (pre ++ NL :: rest) = some pre.length := by
      simpa using findIdx?_append_first (fun b => b == NL) NL rest pre 0 hp (by simp)
    have hlen1 : (pre ++ [NL]).length = pre.length + 1 := by simp
    have hpos : 0 < pre.length := List.length_pos.2 hne
    have hcond : (decide ((pre ++ [NL]).length ≤ 1) ||
        decide ((pre ++ [NL]).getLast? ≠ some NL)) = false := by
      have h1 : ¬((pre ++ [NL]).length ≤ 1) := by
        rw [hlen1]
        omega
      simp [h1, List.getLast?_concat, hne]
    by_cases hcap : pre.length + 1 ≤ cap
    · have hslice : readSliceNL cap (pre ++ NL :: rest) = (pre ++ [NL], none, rest) := by
        unfold readSliceNL
        simp only [hfind]
        rw [if_pos hcap, show pre ++ NL :: rest = (pre ++ [NL]) ++ rest by simp,
          List.take_left' hlen1, List.drop_left' hlen1]
      unfold readLine
      simp only [hslice, hcond, Bool.false_eq_true, if_false, List.dropLast_concat]
    · have hcap' : cap ≤ pre.length := by omega
      have hslice : readSliceNL cap (pre ++ NL :: rest) =
          (pre.take cap, some .bufferFull, pre.drop cap ++ NL :: rest) := by
        unfold readSliceNL
        simp only [hfind]
        rw [if_neg hcap]
        rw [List.take_append_eq_append_take, List.drop_append_eq_append_drop,
          Nat.sub_eq_zero_of_le hcap']
        simp
      have hp2 : ∀ a ∈ pre.drop cap, (fun b => b == NL) a = false :=
        fun a ha => hp a (List.drop_subset cap pre ha)
      have hfind2 : List.findIdx? (fun b => b == NL) (pre.drop cap ++ NL :: rest) =
          some (pre.drop cap).length := by
        simpa using findIdx?_append_first (fun b => b == NL) NL rest (pre.drop cap) 0 hp2
          (by simp)
      have hbytes : readBytesNL (pre.drop cap ++ NL :: rest) =
          (pre.drop cap ++ [NL], none, rest) := by
        unfold readBytesNL
        simp only [hfind2]
        rw [show pre.drop cap ++ NL :: rest = (pre.drop cap ++ [NL]) ++ rest by simp,
          List.take_left' (by simp), List.drop_left' (by simp)]
      have hjoin : pre.take cap ++ (pre.drop cap ++ [NL]) = pre ++ [NL] := by
        rw [← List.append_assoc, List.take_append_drop]
      unfold readLine
      simp only [hslice, hbytes, hjoin, hcond, Bool.false_eq_true, if_false,
        List.dropLast_concat]
  · intro s hs
    have hp : ∀ a ∈ s, (fun b => b == NL) a = false := by
      intro a ha
      simpa [beq_eq_false_iff_ne] using hs a ha
    have hfind : List.findIdx? (fun b => b == NL) s = none :=
      List.findIdx?_eq_none_iff.2 hp
    by_cases hlen : s.length < cap
    · simp [readLine, readSliceNL, hfind, hlen]
    · have hfind2 : List.findIdx? (fun b => b == NL) (s.drop cap) = none :=
        List.findIdx?_eq_none_iff.2 (fun a ha => hp a (List.drop_subset cap s ha))
      simp [readLine, readSliceNL, readBytesNL, hfind, hfind2, hlen]

/-- Witness for `readLine_growth`: a 4-byte line read with a 3-byte
buffer (the overflow continuation runs) still parses completely. -/
theorem readLine_growth_witness :
    readLine 3 ([97, 97, 97, 97] ++ NL :: [114]) = (.ok [97, 97, 97, 97], [114]) :=
  (readLine_growth 3).1 [97, 97, 97, 97] [114] (by decide) (by decide)

/-- **C10.** Every line `readLine` returns successfully is non-empty (its
trailing newline stripped), so the dispatches on `line[0]` in
`ReadReply`, `ReadInt`, `ReadString`, `ReadSlice`, `ReadStatus` and
`ReadMetaFrame` index into a non-empty slice; a reply consisting of a
bare newline is rejected as an "invalid reply" instead of producing an
empty line. -/
theorem readLine_ok_nonempty (cap : Nat) :
    (∀ s l rest, readLine cap s = (.ok l, rest) → l ≠ []) ∧
    (∀ rest, readLine cap (NL :: rest) =
      (.error (.plainErr "skytable: invalid reply"), rest)) := by
  constructor
  · intro s l rest h
    unfold readLine at h
    have hchk : ∀ (b1 : Bytes) (r1 : Bytes),
        (if (b1.length ≤ 1 || b1.getLast? ≠ some NL) then
            ((.error (.plainErr "skytable: invalid reply") : Except GoError Bytes), r1)
          else (.ok b1.dropLast, r1)) = (.ok l, rest) → l ≠ [] := by
      intro b1 r1 hb1
      split at hb1
      · simp at hb1
      · rename_i hcond
        simp only [Prod.mk.injEq, Except.ok.injEq] at hb1
        obtain ⟨hl, -⟩ := hb1
        simp only [Bool.or_eq_true, decide_eq_true_eq, not_or] at hcond
        intro hx
        rw [← hl] at hx
        have := congrArg List.length hx
        simp [List.length_dropLast] at this
        omega
    rcases hsl : readSliceNL cap s with ⟨b, oe, r⟩
    rcases oe with _ | be
    · simp only [hsl] at h
      exact hchk b r h
    · cases be
      · rcases hb2 : readBytesNL r with ⟨b2, oe2, r2⟩
        rcases oe2 with _ | be2
        · simp only [hsl, hb2] at h
          exact hchk (b ++ b2) r2 h
        · simp only [hsl, hb2] at h
          simp at h
      · simp only [hsl] at h
        simp at h
  · intro rest
    have hfind : List.findIdx? (fun b => b == NL) (NL :: rest) = some 0 := by
      simp [List.findIdx?_cons]
    by_cases hcap : 1 ≤ cap
    · simp [readLine, readSliceNL, hfind, hcap]
    · have hc0 : cap = 0 := by omega
      subst hc0
      simp [readLine, readSliceNL, readBytesNL, hfind]

/-- Witness for `readLine_ok_nonempty`: the line parsed from `ab\n` is
non-empty. -/
theorem readLine_ok_nonempty_witness : [97, 98] ≠ ([] : Bytes) :=
  (readLine_ok_nonempty 16).1 [97, 98, 10] [97, 98] [] rfl

/-- **C6.** `isBadConn(err, allowTimeout, addr)` classifies exactly as
specified: `nil` is not bad; `context.Canceled` and
`context.DeadlineExceeded` are bad; a typed Skytable error is bad exactly
when its text starts with `"READONLY "`, or starts with `"MOVED "` and
ends with `" " ++ addr`; a network error with `Timeout() == true` is not
bad exactly when `allowTimeout` is set; every remaining error (EOFs,
non-timeout network errors, plain errors) is bad. -/
theorem isBadConn_classification :
    (∀ a addr, isBadConn none a addr = false) ∧
    (∀ a addr, isBadConn (some .canceled) a addr = true) ∧
    (∀ a addr, isBadConn (some .deadlineExceeded) a addr = true) ∧
    (∀ m a addr, isBadConn (some (.skyErr m)) a addr =
      (m.startsWith "READONLY " || (m.startsWith "MOVED " && m.endsWith (" " ++ addr)))) ∧
    (∀ t m a addr, isBadConn (some (.netErr t m)) a addr = !(a && t)) ∧
    (∀ a addr, isBadConn (some .eof) a addr = true) ∧
    (∀ a addr, isBadConn (some .unexpectedEOF) a addr = true) ∧
    (∀ m a addr, isBadConn (some (.plainErr m)) a addr = true) := by
  refine ⟨?_, ?_, ?_, ?_, ?_, ?_, ?_, ?_⟩ <;> intros <;>
    simp [isBadConn, isSkytableError, asTimeoutError, isReadOnlyError,
      isMovedSameConnAddr, GoError.text]
  case _ t m a addr => cases a <;> cases t <;> simp

/-- **C7** fails as stated: with no per-command read timeout the code
uses the options' `ReadTimeout` as the read deadline with no 10-second
grace, while the spec's `max(cmd.readTimeout, ReadTimeout) + 10s` demands
13 s when `ReadTimeout` is 3 s. -/
theorem cmdTimeout_no_grace_cex :
    cmdTimeout (3 * second) none = 3 * second ∧
    specReadDeadline (3 * second) none = 13 * second ∧
    cmdTimeout (3 * second) none ≠ specReadDeadline (3 * second) none := by
  refine ⟨rfl, by norm_num [specReadDeadline, second], by norm_num [cmdTimeout, specReadDeadline, second]⟩

/-- **C7** (amended): the read deadline is the per-command `readTimeout`
plus 10 s of grace when that timeout is present and non-zero, no deadline
at all when it is present and zero, and exactly the options'
`ReadTimeout` (with no grace) when it is absent. -/
theorem cmdTimeout_spec (rt t : Int) (h : t ≠ 0) :
    cmdTimeout rt none = rt ∧
    cmdTimeout rt (some 0) = 0 ∧
    cmdTimeout rt (some t) = t + 10 * second := by
  refine ⟨rfl, rfl, ?_⟩
  simp [cmdTimeout, h]

/-- Witness for `cmdTimeout_spec` at `rt = 3 s`, `t = 1 s`. -/
theorem cmdTimeout_spec_witness :
    cmdTimeout (3 * second) none = 3 * second ∧
    cmdTimeout (3 * second) (some 0) = 0 ∧
    cmdTimeout (3 * second) (some second) = second + 10 * second :=
  cmdTimeout_spec (3 * second) second (by norm_num [second])

/-- **C2** fails as stated: the write succeeded, the reply metaframe was
already consumed (a partial reply) and `readReply` then failed with a
read-timeout error, yet the attempt is retried. -/
theorem processAttempt_partial_timeout_retried_cex :
    partialReplyConsumed (.replyErr (.netErr true "i/o timeout")) = true ∧
    processAttempt (some (5 * second)) none (.replyErr (.netErr true "i/o timeout")) =
      (true, some (.netErr true "i/o timeout")) :=
  ⟨rfl, rfl⟩

/-- **C2** (amended): on the single-command path, an attempt that fails
with an error whose `Timeout()` is true is always retried — regardless of
whether the write succeeded, whether part of the reply was consumed, or
whether a per-command read timeout is set: `_process`'s `retryTimeout`
flag starts at 1 and is only ever stored back as 1, so `shouldRetry`
always sees `retryTimeout == true`. -/
theorem processAttempt_timeout_always_retried (cmdRT : Option Int)
    (writeErr : Option GoError) (ro : ReadOutcome) (msg : String)
    (h : (processAttempt cmdRT writeErr ro).2 = some (.netErr true msg)) :
    (processAttempt cmdRT writeErr ro).1 = true := by
  unfold processAttempt at h ⊢
  cases writeErr with
  | some e =>
    simp only at h
    cases h
    simp [shouldRetry, asTimeoutError]
  | none =>
    cases hro : readPhaseErr ro with
    | none => simp [hro] at h
    | some e =>
      simp only [hro] at h ⊢
      cases h
      simp [shouldRetry, asTimeoutError]

/-- Witness for `processAttempt_timeout_always_retried`: a read timeout
after a consumed metaframe, with a per-command read timeout set. -/
theorem processAttempt_timeout_always_retried_witness :
    (processAttempt (some second) none (.replyErr (.netErr true "read timeout"))).1 = true :=
  processAttempt_timeout_always_retried (some second) none
    (.replyErr (.netErr true "read timeout")) "read timeout" rfl

/-- **C8.** `Options.init` normalises exactly as the defaults table says:
`MaxRetries` 0 → 3 and -1 → 0; `MinRetryBackoff` 0 → 8 ms and -1 → 0;
`MaxRetryBackoff` 0 → 512 ms and -1 → 0; `DialTimeout` 0 → 5 s;
`ReadTimeout` 0 → 3 s and -1 → none; `WriteTimeout` 0 → the normalised
`ReadTimeout` and -1 → none; a non-empty `Table` without a ':' gets the
`"default:"` prefix. -/
theorem options_init_defaults (g : Int) (o : Options) :
    ((o.init g).MaxRetries =
      if o.MaxRetries = -1 then 0 else if o.MaxRetries = 0 then 3 else o.MaxRetries) ∧
    ((o.init g).MinRetryBackoff =
      if o.MinRetryBackoff = -1 then 0
      else if o.MinRetryBackoff = 0 then 8 * millisecond else o.MinRetryBackoff) ∧
    ((o.init g).MaxRetryBackoff =
      if o.MaxRetryBackoff = -1 then 0
      else if o.MaxRetryBackoff = 0 then 512 * millisecond else o.MaxRetryBackoff) ∧
    ((o.init g).DialTimeout = if o.DialTimeout = 0 then 5 * second else o.DialTimeout) ∧
    ((o.init g).ReadTimeout =
      if o.ReadTimeout = -1 then 0
      else if o.ReadTimeout = 0 then 3 * second else o.ReadTimeout) ∧
    ((o.init g).WriteTimeout =
      if o.WriteTimeout = -1 then 0
      else if o.WriteTimeout = 0 then (o.init g).ReadTimeout else o.WriteTimeout) ∧
    ((o.init g).Table =
      if o.Table ≠ "" && !(o.Table.contains ':') then "default:" ++ o.Table else o.Table) := by
  refine ⟨?_, ?_, ?_, ?_, ?_, ?_, ?_⟩ <;>
    simp only [Options.init, sAddr_MaxRetries, sAddr_MinRetryBackoff, sAddr_MaxRetryBackoff,
      sAddr_DialTimeout, sAddr_ReadTimeout, sAddr_WriteTimeout, sAddr_Table,
      sNetwork_MaxRetries, sNetwork_MinRetryBackoff, sNetwork_MaxRetryBackoff,
      sNetwork_DialTimeout, sNetwork_ReadTimeout, sNetwork_WriteTimeout, sNetwork_Table,
      sTable_MaxRetries, sTable_MinRetryBackoff, sTable_MaxRetryBackoff,
      sTable_DialTimeout, sTable_ReadTimeout, sTable_WriteTimeout, sTable_Table,
      sDial_MaxRetries, sDial_MinRetryBackoff, sDial_MaxRetryBackoff,
      sDial_DialTimeout, sDial_ReadTimeout, sDial_WriteTimeout, sDial_Table,
      sPool_MaxRetries, sPool_MinRetryBackoff, sPool_MaxRetryBackoff,
      sPool_DialTimeout, sPool_ReadTimeout, sPool_WriteTimeout, sPool_Table,
      sRead_MaxRetries, sRead_MinRetryBackoff, sRead_MaxRetryBackoff,
      sRead_DialTimeout, sRead_ReadTimeout, sRead_WriteTimeout, sRead_Table,
      sWrite_MaxRetries, sWrite_MinRetryBackoff, sWrite_MaxRetryBackoff,
      sWrite_DialTimeout, sWrite_ReadTimeout, sWrite_WriteTimeout, sWrite_Table,
      sPoolTimeout_MaxRetries, sPoolTimeout_MinRetryBackoff, sPoolTimeout_MaxRetryBackoff,
      sPoolTimeout_DialTimeout, sPoolTimeout_ReadTimeout, sPoolTimeout_WriteTimeout,
      sPoolTimeout_Table,
      sIdle_MaxRetries, sIdle_MinRetryBackoff, sIdle_MaxRetryBackoff,
      sIdle_DialTimeout, sIdle_ReadTimeout, sIdle_WriteTimeout, sIdle_Table,
      sIdleFreq_MaxRetries, sIdleFreq_MinRetryBackoff, sIdleFreq_MaxRetryBackoff,
      sIdleFreq_DialTimeout, sIdleFreq_ReadTimeout, sIdleFreq_WriteTimeout, sIdleFreq_Table,
      sMaxRetries_MaxRetries, sMaxRetries_MinRetryBackoff, sMaxRetries_MaxRetryBackoff,
      sMaxRetries_DialTimeout, sMaxRetries_ReadTimeout, sMaxRetries_WriteTimeout,
      sMaxRetries_Table,
      sMinBackoff_MaxRetries, sMinBackoff_MinRetryBackoff, sMinBackoff_MaxRetryBackoff,
      sMinBackoff_DialTimeout, sMinBackoff_ReadTimeout, sMinBackoff_WriteTimeout,
      sMinBackoff_Table,
      sMaxBackoff_MaxRetries, sMaxBackoff_MinRetryBackoff, sMaxBackoff_MaxRetryBackoff,
      sMaxBackoff_DialTimeout, sMaxBackoff_ReadTimeout, sMaxBackoff_WriteTimeout,
      sMaxBackoff_Table]

end Sky
